import Mathlib

/-!
Verification of the layered request-handling pipeline of the what2eat
repository: entity model (src/dishes/model.py, src/collections/model.py),
transfer schemas (src/dishes/schema.py), service layer (src/dishes/service.py),
router (src/dishes/router.py) and the error-translation contract
(src/core/exception.py).

The repository file src/dishes/repository.py is not present in the source
tree (only its callers in service.py are), so the `DishRepository`
operations are modelled from the spec (section 4.2) together with the
declared database constraints of src/dishes/model.py; each such definition
carries a doc comment starting with `Modelled from the spec:`.
-/

deriving instance DecidableEq for Except

namespace What2Eat

/-! ## Core exception types (src/core/exception.py) -/

/-- Data carried by a fastapi `HTTPException`: a status code and a detail
message.  Domain errors of src/core/exception.py are instances of this. -/
structure HTTPException where
  status_code : Nat
  detail : String
deriving DecidableEq, Repr

/-- `NotFoundException` from src/core/exception.py lines 9-11: HTTP 404 with
a detail message (default "Resource not found"). -/
def NotFoundException (detail : String := "Resource not found") : HTTPException :=
  { status_code := 404, detail := detail }

/-- `AlreadyExistsException` from src/core/exception.py lines 15-17: HTTP 409
with a detail message (default "Resource already exists"). -/
def AlreadyExistsException (detail : String := "Resource already exists") : HTTPException :=
  { status_code := 409, detail := detail }

/-- A JSON response as produced by the exception handlers: a status code and
the body's "detail" field. -/
structure JSONResponse where
  status_code : Nat
  detail : String
deriving DecidableEq, Repr

/-- A python exception reaching the exception-handling machinery: either an
`HTTPException` (the domain errors of src/core/exception.py) or any other
exception, abstracted as its class name plus its message. -/
inductive PyException where
  | httpExc : HTTPException → PyException
  | otherExc : (className : String) → (message : String) → PyException
deriving DecidableEq, Repr

/-- Whether an exception is one of the explicitly classified domain errors
(an `HTTPException`), which fastapi maps to its own status code. -/
def isDomainHTTPException : PyException → Bool
  | .httpExc _ => true
  | .otherExc _ _ => false

/-- `global_exception_handler` from src/core/exception.py lines 35-40: logs
the exception server-side and returns a fixed 500 response whose body does
not depend on the exception. -/
def global_exception_handler (_exc : PyException) : JSONResponse :=
  { status_code := 500, detail := "Internal server error" }

/-- The app-level dispatch produced by `register_exception_handlers`
(src/core/exception.py lines 45-50) together with fastapi's built-in
`HTTPException` handler: an `HTTPException` is rendered with its own status
code and detail; every other exception falls through to the registered
`global_exception_handler`. -/
def app_handle_exception : PyException → JSONResponse
  | .httpExc h => { status_code := h.status_code, detail := h.detail }
  | e => global_exception_handler e

/-! ## Entity model (src/dishes/model.py, src/collections/model.py)

Timestamps of `DateTimeMixin` (src/core/base_model.py) are modelled as
natural numbers supplied by the backend clock at write time. -/

/-- The `Dish` table row (src/dishes/model.py lines 34-53): integer surrogate
key, `name` (unique, not null, max length 255), optional `description`, and
the `DateTimeMixin` timestamps. -/
structure Dish where
  id : Nat
  name : String
  description : Option String
  created_at : Nat
  updated_at : Nat
deriving DecidableEq, Repr

/-- The `Collection` table row (src/collections/model.py lines 15-25):
integer surrogate key and `name` (not null, max length 255, no uniqueness
constraint). -/
structure Collection where
  id : Nat
  name : String
deriving DecidableEq, Repr

/-- The `collection_dish` join-table row `CollectionDishLink`
(src/dishes/model.py lines 15-28): composite primary key of two foreign
keys. -/
structure CollectionDishLink where
  collection_id : Nat
  dish_id : Nat
deriving DecidableEq, Repr

/-- The persisted state: the three tables plus the backend's autoincrement
counter for `dishes.id`. -/
structure DB where
  dishes : List Dish
  collections : List Collection
  links : List CollectionDishLink
  next_dish_id : Nat
deriving DecidableEq, Repr

/-- The empty database, as produced by `create_db_and_tables`
(src/core/database.py): no rows, autoincrement starts at 1. -/
def initialDB : DB := { dishes := [], collections := [], links := [], next_dish_id := 1 }

/-- The column of dish names, on which src/dishes/model.py line 41 declares
the UNIQUE constraint. -/
def dishNames (db : DB) : List String := db.dishes.map Dish.name

/-! ## Declared field constraints (for the Dish/Collection `name` columns) -/

/-- The constraints a model `Field(...)` declaration places on a string
column: optional max length, uniqueness, nullability. -/
structure FieldSpec where
  max_length : Option Nat
  unique : Bool
  nullable : Bool
deriving DecidableEq, Repr

/-- `Dish.name` declaration, src/dishes/model.py line 41:
`Field(max_length=255, unique=True, nullable=False)`. -/
def Dish.nameField : FieldSpec := { max_length := some 255, unique := true, nullable := false }

/-- `Collection.name` declaration, src/collections/model.py line 19:
`Field(max_length=255, nullable=False)` — no uniqueness constraint. -/
def Collection.nameField : FieldSpec := { max_length := some 255, unique := false, nullable := false }

/-- Whether a single stored value satisfies a field's nullability and length
constraints. -/
def columnOk (fs : FieldSpec) (v : Option String) : Bool :=
  match v with
  | none => fs.nullable
  | some s =>
    match fs.max_length with
    | none => true
    | some m => s.length ≤ m

/-- Whether a whole column of stored values is accepted by the backend under
a field's declared constraints (each value valid, and duplicate-free when
the field is unique). -/
def tableColumnValid (fs : FieldSpec) (col : List (Option String)) : Bool :=
  col.all (columnOk fs) && (!fs.unique || decide col.Nodup)

/-! ## Transfer schemas (src/dishes/schema.py) -/

/-- `DishCreate` (src/dishes/schema.py lines 15-40, inheriting `DishBase`):
required `name` (max length 255, enforced at validation), optional
`description`. -/
structure DishCreate where
  name : String
  description : Option String
deriving DecidableEq, Repr

/-- `DishUpdate` (src/dishes/schema.py lines 47-51): both fields optional
with default `None`.  Pydantic records which fields the request actually
provided (`model_fields_set`), so a parsed field is one of: not provided
(`none`), provided explicitly as null (`some none`), or provided as a string
(`some (some s)`). -/
structure DishUpdate where
  name : Option (Option String)
  description : Option (Option String)
deriving DecidableEq, Repr

/-- `DishPublic` (src/dishes/schema.py lines 58-63): identity, `name`,
`description`, `created_at`. -/
structure DishPublic where
  id : Nat
  name : String
  description : Option String
  created_at : Nat
deriving DecidableEq, Repr

/-- `DishPublic.model_validate` applied to a `Dish` entity: projects the
public fields. -/
def DishPublic.model_validate (d : Dish) : DishPublic :=
  { id := d.id, name := d.name, description := d.description, created_at := d.created_at }

/-- The `Literal` values accepted for `order_by` in `DishQueryParams`
(src/dishes/schema.py lines 75-78). -/
def allowedOrderBy : List String := ["id", "name", "created_at"]

/-- The `Literal` values accepted for `direction` in `DishQueryParams`
(src/dishes/schema.py lines 79-82). -/
def allowedDirection : List String := ["asc", "desc"]

/-- `DishQueryParams` (src/dishes/schema.py lines 70-92) after validation:
`order_by` and `direction` are `Literal`-constrained strings, `limit` is
between 1 and 500, `offset` is non-negative. -/
structure DishQueryParams where
  search : Option String
  order_by : String
  direction : String
  limit : Int
  offset : Int
deriving DecidableEq, Repr

/-- The raw query-string values for GET `/` before validation; `none` means
the parameter was not supplied, so its schema default applies. -/
structure RawQuery where
  search : Option String
  order_by : Option String
  direction : Option String
  limit : Option Int
  offset : Option Int
deriving DecidableEq, Repr

/-- Pydantic validation of `DishQueryParams` (src/dishes/schema.py lines
70-92): defaults `order_by="id"`, `direction="asc"`, `limit=10`, `offset=0`;
`order_by`/`direction` must be among their `Literal` values, `limit` must
satisfy `ge=1, le=500`, `offset` must satisfy `ge=0`; any violation rejects
the request (`none`, rendered as a 422 by fastapi). -/
def DishQueryParams.validate (raw : RawQuery) : Option DishQueryParams :=
  let ob := raw.order_by.getD "id"
  let dir := raw.direction.getD "asc"
  let lim := raw.limit.getD 10
  let off := raw.offset.getD 0
  if ob ∈ allowedOrderBy ∧ dir ∈ allowedDirection ∧ 1 ≤ lim ∧ lim ≤ 500 ∧ 0 ≤ off then
    some { search := raw.search, order_by := ob, direction := dir, limit := lim, offset := off }
  else
    none

/-! ## Repository layer

src/dishes/repository.py is not present in the source tree; the definitions
below are modelled from spec section 4.2 and the database constraints
declared in src/dishes/model.py. -/

/-- The sqlalchemy `IntegrityError` signal raised by the backend when a
write violates a declared constraint. -/
structure IntegrityError where
  message : String
deriving DecidableEq, Repr

/-- Modelled from the spec: the row inserted by `DishRepository.create` —
identity from the backend's autoincrement counter, attributes from the
validated input, timestamps from the backend clock (`DateTimeMixin`,
src/core/base_model.py). -/
def newDish (now : Nat) (db : DB) (dish_in : DishCreate) : Dish :=
  { id := db.next_dish_id, name := dish_in.name, description := dish_in.description,
    created_at := now, updated_at := now }

/-- Modelled from the spec: `DishRepository.create` (spec section 4.2,
src/dishes/repository.py missing) — "inserts a new row from validated input.
Propagates a uniqueness-violation signal if `name` collides; does not catch
it."  The backend enforces the UNIQUE constraint on `dishes.name` declared
in src/dishes/model.py line 41 at write time: the insert succeeds exactly
when the resulting name column is duplicate-free, otherwise it raises
`IntegrityError` and leaves the table unchanged. -/
def DishRepository.create (now : Nat) (db : DB) (dish_in : DishCreate) :
    Except IntegrityError (Dish × DB) :=
  if ((db.dishes ++ [newDish now db dish_in]).map Dish.name).Nodup then
    .ok (newDish now db dish_in,
      { db with dishes := db.dishes ++ [newDish now db dish_in],
                next_dish_id := db.next_dish_id + 1 })
  else
    .error { message := "UNIQUE constraint failed: dishes.name" }

/-- Modelled from the spec: `DishRepository.get_by_id` (spec section 4.2,
src/dishes/repository.py missing) — "point lookup by primary key; returns an
explicit not-found sentinel rather than failing". -/
def DishRepository.get_by_id (db : DB) (dish_id : Nat) : Option Dish :=
  db.dishes.find? (fun d => d.id = dish_id)

/-- The per-row effect of applying a `DishUpdate`: only fields the request
provided are applied (spec section 4.2: "applies only the fields present in
`partial_data` (unset fields left untouched)"); `updated_at` is refreshed by
the backend (`DateTimeMixin.onupdate`, src/core/base_model.py).  Returns
`none` when the update would set `name` to null, which the NOT NULL
constraint of src/dishes/model.py line 41 rejects. -/
def applyDishUpdate (u : DishUpdate) (now : Nat) (d : Dish) : Option Dish :=
  match u.name with
  | some none => none
  | un =>
    some { d with
      name := match un with | some (some v) => v | _ => d.name,
      description := match u.description with | some v => v | none => d.description,
      updated_at := now }

/-- Modelled from the spec (see `DishRepository.update`): the dish table
after the partial update has been applied to the rows matching `dish_id`. -/
def updatedDishes (now : Nat) (db : DB) (dish_id : Nat) (u : DishUpdate) : List Dish :=
  db.dishes.map fun d =>
    if d.id = dish_id then (applyDishUpdate u now d).getD d else d

/-- Modelled from the spec: `DishRepository.update` (spec section 4.2,
src/dishes/repository.py missing) — "applies only the fields present in
`partial_data` (unset fields left untouched); returns absent if no row
matches `id`. Propagates uniqueness-violation signal on name collision."
The backend's constraints from src/dishes/model.py line 41 are checked at
write time: NOT NULL on `name`, and UNIQUE on the resulting name column;
a violated constraint raises `IntegrityError` and leaves the table
unchanged. -/
def DishRepository.update (now : Nat) (db : DB) (dish_id : Nat) (u : DishUpdate) :
    Except IntegrityError (Option (Dish × DB)) :=
  match db.dishes.find? (fun d => d.id = dish_id) with
  | none => .ok none
  | some row =>
    match applyDishUpdate u now row with
    | none => .error { message := "NOT NULL constraint failed: dishes.name" }
    | some row' =>
      if ((updatedDishes now db dish_id u).map Dish.name).Nodup then
        .ok (some (row', { db with dishes := updatedDishes now db dish_id u }))
      else
        .error { message := "UNIQUE constraint failed: dishes.name" }

/-- Modelled from the spec: `DishRepository.delete` (spec section 4.2,
src/dishes/repository.py missing) — "true if a row was removed, false if
none matched".  Join-table rows referencing the deleted dish are removed
with it: spec section 3 requires referential integrity on
`CollectionDishLink` ("deleting either parent must not silently orphan rows
in this join"), section 8 requires that deleting a linked dish leaves no
dangling join rows, and section 6 requires DELETE of an existing dish to
succeed with 204 — so the deterministic behaviour is cascade, not reject. -/
def DishRepository.delete (db : DB) (dish_id : Nat) : Bool × DB :=
  if db.dishes.any (fun d => d.id = dish_id) then
    (true,
      { db with
        dishes := db.dishes.filter (fun d => d.id ≠ dish_id),
        links := db.links.filter (fun lk => lk.dish_id ≠ dish_id) })
  else
    (false, db)

/-! ## Service layer (src/dishes/service.py) -/

/-- A single-quote character, used in the conflict message of
`DishService.create_dish`. -/
def sq : String := String.singleton (Char.ofNat 39)

/-- The detail message of src/dishes/service.py line 46:
`Dish with name <quoted name> already exists`. -/
def createConflictMsg (name : String) : String :=
  "Dish with name " ++ sq ++ name ++ sq ++ " already exists"

/-- The detail message of src/dishes/service.py lines 51, 91 and 102:
`Dish with id <id> not found`. -/
def notFoundMsg (dish_id : Nat) : String :=
  "Dish with id " ++ toString dish_id ++ " not found"

/-- `DishService.create_dish` (src/dishes/service.py lines 32-46): calls
`Repository.create`; on `IntegrityError`, raises
`AlreadyExistsException("Dish with name '<name>' already exists")`; on
success returns `DishPublic.model_validate` of the new entity. -/
def DishService.create_dish (now : Nat) (db : DB) (dish_in : DishCreate) :
    Except HTTPException (DishPublic × DB) :=
  match DishRepository.create now db dish_in with
  | .ok (new_dish, db') => .ok (DishPublic.model_validate new_dish, db')
  | .error _ => .error (AlreadyExistsException (createConflictMsg dish_in.name))

/-- `DishService.get_dish_by_id` (src/dishes/service.py lines 48-53): calls
`Repository.get_by_id`; raises `NotFoundException("Dish with id <id> not
found")` when absent; otherwise returns the public representation. -/
def DishService.get_dish_by_id (db : DB) (dish_id : Nat) :
    Except HTTPException DishPublic :=
  match DishRepository.get_by_id db dish_id with
  | none => .error (NotFoundException (notFoundMsg dish_id))
  | some dish => .ok (DishPublic.model_validate dish)

/-- `DishService.list_dishes` (src/dishes/service.py lines 57-80): calls
`repository.get_all` with the five filter arguments passed through
unchanged, then maps every returned entity to
`DishPublic.model_validate`.  The repository dependency (`self.repository`)
is a parameter, so the theorem quantifies over every sequence
`Repository.get_all` can return. -/
def DishService.list_dishes
    (get_all : Option String → String → String → Int → Int → List Dish)
    (search : Option String) (order_by : String) (direction : String)
    (limit : Int) (offset : Int) : List DishPublic :=
  (get_all search order_by direction limit offset).map DishPublic.model_validate

/-- `DishService.update_dish` (src/dishes/service.py lines 84-97): calls
`Repository.update`; on `IntegrityError` raises
`AlreadyExistsException("Dish with this name already exists")`; when the
repository reports no matching row, raises `NotFoundException("Dish with id
<id> not found")`; otherwise returns the updated public representation. -/
def DishService.update_dish (now : Nat) (db : DB) (dish_id : Nat) (dish_in : DishUpdate) :
    Except HTTPException (DishPublic × DB) :=
  match DishRepository.update now db dish_id dish_in with
  | .error _ => .error (AlreadyExistsException "Dish with this name already exists")
  | .ok none => .error (NotFoundException (notFoundMsg dish_id))
  | .ok (some (updated_dish, db')) => .ok (DishPublic.model_validate updated_dish, db')

/-- `DishService.delete_dish` (src/dishes/service.py lines 99-102): calls
`Repository.delete`; raises `NotFoundException("Dish with id <id> not
found")` when nothing was removed; otherwise produces no result (the
resulting state is returned to make the effect explicit). -/
def DishService.delete_dish (db : DB) (dish_id : Nat) :
    Except HTTPException DB :=
  match DishRepository.delete db dish_id with
  | (true, db') => .ok db'
  | (false, _) => .error (NotFoundException (notFoundMsg dish_id))

/-! ## Request layer (src/dishes/router.py) -/

/-- The outcome of a route invocation: a success status code with a payload,
or the error response produced by the exception-handling machinery. -/
inductive HttpOutcome (α : Type) where
  | success : Nat → α → HttpOutcome α
  | errorResp : JSONResponse → HttpOutcome α
deriving DecidableEq, Repr

/-- The PATCH `/{dish_id}` route (src/dishes/router.py lines 126-137): calls
`service.update_dish` and returns its result with fastapi's default success
status 200; a raised domain error propagates to the exception-handling
machinery. -/
def route_update_dish (now : Nat) (db : DB) (dish_id : Nat) (dish_in : DishUpdate) :
    HttpOutcome (DishPublic × DB) :=
  match DishService.update_dish now db dish_id dish_in with
  | .ok r => .success 200 r
  | .error e => .errorResp (app_handle_exception (.httpExc e))

/-- The GET `/` route (src/dishes/router.py lines 106-123): fastapi first
validates the query string against `DishQueryParams` (via `Depends()`),
answering 422 without touching the service or repository when validation
fails; on success it calls `service.list_dishes` with the validated
parameters. -/
def route_list_dishes
    (get_all : Option String → String → String → Int → Int → List Dish)
    (raw : RawQuery) : HttpOutcome (List DishPublic) :=
  match DishQueryParams.validate raw with
  | none => .errorResp { status_code := 422, detail := "Unprocessable Entity" }
  | some p =>
    .success 200 (DishService.list_dishes get_all p.search p.order_by p.direction p.limit p.offset)

/-! ## Reachable persisted states

The states reachable through the dish pipeline: the empty database created
by `create_db_and_tables` (src/core/database.py), followed by any sequence
of successful service operations (failed operations raise before the
session commits and leave the state unchanged). -/

inductive Reachable : DB → Prop where
  | init : Reachable initialDB
  | create (now : Nat) (db : DB) (dish_in : DishCreate) (p : DishPublic) (db' : DB) :
      Reachable db → DishService.create_dish now db dish_in = .ok (p, db') → Reachable db'
  | update (now : Nat) (db : DB) (dish_id : Nat) (u : DishUpdate) (p : DishPublic) (db' : DB) :
      Reachable db → DishService.update_dish now db dish_id u = .ok (p, db') → Reachable db'
  | delete (db : DB) (dish_id : Nat) (db' : DB) :
      Reachable db → DishService.delete_dish db dish_id = .ok db' → Reachable db'

/-! ## Concrete fixtures used by the witnesses -/

/-- A stored dish row. -/
def dishMapo : Dish :=
  { id := 1, name := "Mapo Tofu", description := some "spicy", created_at := 0, updated_at := 0 }

/-- A second stored dish row. -/
def dishKung : Dish :=
  { id := 2, name := "Kung Pao Chicken", description := none, created_at := 0, updated_at := 0 }

/-- A small database: two dishes, two collections, with dish 1 attached to
both collections through the join table. -/
def exDB : DB :=
  { dishes := [dishMapo, dishKung],
    collections := [{ id := 1, name := "Favorites" }, { id := 2, name := "Sichuan" }],
    links := [{ collection_id := 1, dish_id := 1 }, { collection_id := 2, dish_id := 1 }],
    next_dish_id := 3 }

/-- `exDB` after deleting dish 1: the row and both of its join rows are
gone. -/
def exDBAfterDelete : DB :=
  { dishes := [dishKung],
    collections := [{ id := 1, name := "Favorites" }, { id := 2, name := "Sichuan" }],
    links := [],
    next_dish_id := 3 }

/-- A concrete stand-in for `DishRepository.get_all`, returning the two
fixture rows for every filter combination. -/
def gaEx : Option String → String → String → Int → Int → List Dish :=
  fun _ _ _ _ _ => [dishMapo, dishKung]

/-- An empty query string: every parameter takes its schema default. -/
def rawEmpty : RawQuery :=
  { search := none, order_by := none, direction := none, limit := none, offset := none }

/-- A query string with an `order_by` value outside the enumerated set. -/
def rawBad : RawQuery :=
  { search := none, order_by := some "price", direction := none, limit := none, offset := none }

/-- The validated parameters produced from `rawEmpty`: all defaults. -/
def defaultQP : DishQueryParams :=
  { search := none, order_by := "id", direction := "asc", limit := 10, offset := 0 }

/-! ## Helper lemmas about partial updates -/

/-- An update that does not touch `name` leaves the whole name column
unchanged. -/
lemma names_updatedDishes_of_name_none {u : DishUpdate} (hu : u.name = none)
    (now : Nat) (db : DB) (dish_id : Nat) :
    (updatedDishes now db dish_id u).map Dish.name = db.dishes.map Dish.name := by
  unfold updatedDishes
  rw [List.map_map]
  apply List.map_congr_left
  intro d _
  by_cases hd : d.id = dish_id <;> simp [applyDishUpdate, hu, hd, Function.comp]

/-- The empty update leaves the public projection of every stored row
unchanged (only the system-managed `updated_at` is refreshed). -/
lemma public_updatedDishes_of_empty (now : Nat) (db : DB) (dish_id : Nat) :
    (updatedDishes now db dish_id { name := none, description := none }).map
        DishPublic.model_validate =
      db.dishes.map DishPublic.model_validate := by
  unfold updatedDishes
  rw [List.map_map]
  apply List.map_congr_left
  intro d _
  by_cases hd : d.id = dish_id <;>
    simp [applyDishUpdate, hd, Function.comp, DishPublic.model_validate]

/-- A successful row-level update with an untouched `description` keeps the
row's description; in general the new description is the provided value if
any, else the old one. -/
lemma applyDishUpdate_description {u : DishUpdate} {now : Nat} {d d' : Dish}
    (h : applyDishUpdate u now d = some d') :
    d'.description = u.description.getD d.description := by
  unfold applyDishUpdate at h
  cases hun : u.name with
  | none =>
    rw [hun] at h
    simp only [Option.some.injEq] at h
    rw [← h]
    cases u.description <;> simp
  | some o =>
    cases o with
    | none => rw [hun] at h; simp at h
    | some v =>
      rw [hun] at h
      simp only [Option.some.injEq] at h
      rw [← h]
      cases u.description <;> simp

/-- Inversion of a successful `update_dish`: there is a found row, the
partial update applied to it, and the response is its public
representation. -/
lemma update_dish_ok_inv {now : Nat} {db : DB} {dish_id : Nat} {u : DishUpdate}
    {p : DishPublic} {db' : DB}
    (h : DishService.update_dish now db dish_id u = .ok (p, db')) :
    ∃ row row', db.dishes.find? (fun d => d.id = dish_id) = some row ∧
      applyDishUpdate u now row = some row' ∧ p = DishPublic.model_validate row' := by
  unfold DishService.update_dish DishRepository.update at h
  cases hf : db.dishes.find? (fun d => d.id = dish_id) with
  | none => rw [hf] at h; simp at h
  | some row =>
    rw [hf] at h
    dsimp only at h
    cases ha : applyDishUpdate u now row with
    | none => rw [ha] at h; simp at h
    | some row' =>
      rw [ha] at h
      dsimp only at h
      by_cases hc : (List.map Dish.name (updatedDishes now db dish_id u)).Nodup
      · rw [if_pos hc] at h
        dsimp only at h
        simp only [Except.ok.injEq, Prod.mk.injEq] at h
        exact ⟨row, row', rfl, ha, h.1.symm⟩
      · rw [if_neg hc] at h
        simp at h

/-- A partial update that does not touch `name`, applied to an existing dish
of a uniqueness-sound table, succeeds and returns the public representation
of the row with only the provided fields replaced. -/
lemma update_dish_ok_of_name_none (now : Nat) (db : DB) (dish_id : Nat) (row : Dish)
    (u : DishUpdate) (hu : u.name = none)
    (hrow : db.dishes.find? (fun d => d.id = dish_id) = some row)
    (hnd : (dishNames db).Nodup) :
    DishService.update_dish now db dish_id u =
      .ok ({ id := row.id, name := row.name,
             description := u.description.getD row.description,
             created_at := row.created_at },
           { db with dishes := updatedDishes now db dish_id u }) := by
  have hnd' : (db.dishes.map Dish.name).Nodup := hnd
  have happ : applyDishUpdate u now row =
      some { row with description := u.description.getD row.description,
                      updated_at := now } := by
    unfold applyDishUpdate
    rw [hu]
    cases u.description <;> simp
  have hnames := names_updatedDishes_of_name_none hu now db dish_id
  have hcond : (List.map Dish.name (updatedDishes now db dish_id u)).Nodup := by
    rw [hnames]; exact hnd'
  unfold DishService.update_dish DishRepository.update
  rw [hrow]
  dsimp only
  rw [happ]
  dsimp only
  rw [if_pos hcond]
  simp [DishPublic.model_validate]

/-! ## Theorems -/

/-- Claim C5: for every exception not explicitly classified as a domain
error, the response is HTTP 500 with a fixed generic body independent of
the exception's content — internal error detail never appears in the
response body, and any two distinct unhandled exceptions produce identical
bodies. -/
theorem claim_C5 (e₁ e₂ : PyException)
    (h₁ : isDomainHTTPException e₁ = false)
    (h₂ : isDomainHTTPException e₂ = false) :
    app_handle_exception e₁ = { status_code := 500, detail := "Internal server error" } ∧
    app_handle_exception e₁ = app_handle_exception e₂ := by
  cases e₁ <;> cases e₂ <;>
    simp_all [app_handle_exception, global_exception_handler, isDomainHTTPException]

/-- Witness for C5: two concrete unhandled exceptions with different
internal content both render as the fixed 500 body. -/
theorem claim_C5_witness :
    app_handle_exception (.otherExc "ValueError" "db password=hunter2") =
      { status_code := 500, detail := "Internal server error" } ∧
    app_handle_exception (.otherExc "ValueError" "db password=hunter2") =
      app_handle_exception (.otherExc "KeyError" "user_row") :=
  claim_C5 (.otherExc "ValueError" "db password=hunter2") (.otherExc "KeyError" "user_row")
    (by decide) (by decide)

set_option maxRecDepth 10000

/-- Claim C10: the Collection entity places no uniqueness constraint on
`name` (only length at most 255 and non-null), so two distinct Collection
rows with the same name can coexist, while the same column state is invalid
for Dish rows. -/
theorem claim_C10 :
    Collection.nameField.unique = false ∧
    Dish.nameField.unique = true ∧
    tableColumnValid Collection.nameField [some "Weeknight", some "Weeknight"] = true ∧
    tableColumnValid Dish.nameField [some "Weeknight", some "Weeknight"] = false ∧
    tableColumnValid Collection.nameField [some "Weeknight", none] = false ∧
    tableColumnValid Collection.nameField [some (String.mk (List.replicate 256 'x'))] = false := by
  decide

/-- Claim C4: deleting a dish leaves no `CollectionDishLink` row whose
`dish_id` references the deleted dish (the cascade is deterministic, and
the dish row itself is gone as well). -/
theorem claim_C4 (db : DB) (dish_id : Nat) (db' : DB)
    (h : DishService.delete_dish db dish_id = .ok db') :
    (∀ lk ∈ db'.links, lk.dish_id ≠ dish_id) ∧
    (∀ d ∈ db'.dishes, d.id ≠ dish_id) := by
  cases hca : db.dishes.any (fun d => d.id = dish_id) with
  | false =>
    simp [DishService.delete_dish, DishRepository.delete, hca] at h
  | true =>
    simp only [DishService.delete_dish, DishRepository.delete, hca, if_true, Except.ok.injEq] at h
    constructor
    · intro lk hlk
      rw [← h] at hlk
      simpa using (List.mem_filter.mp hlk).2
    · intro d hd
      rw [← h] at hd
      simpa using (List.mem_filter.mp hd).2

/-- Witness for C4: deleting dish 1, which is attached to two collections
in `exDB`, removes both join rows. -/
theorem claim_C4_witness :
    DishService.delete_dish exDB 1 = .ok exDBAfterDelete ∧
    exDBAfterDelete.links.all (fun lk => lk.dish_id ≠ 1) = true :=
  ⟨by decide, by
    rw [List.all_eq_true]
    intro lk hlk
    simpa using (claim_C4 exDB 1 exDBAfterDelete (by decide)).1 lk hlk⟩

/-- Claim C2: for every id matching no existing dish, `get_dish_by_id`,
`update_dish` and `delete_dish` all fail with exactly
`NotFound (404, "Dish with id <id> not found")` — never with any other
error kind. -/
theorem claim_C2 (now : Nat) (db : DB) (dish_id : Nat) (u : DishUpdate)
    (h : ∀ d ∈ db.dishes, d.id ≠ dish_id) :
    DishService.get_dish_by_id db dish_id =
      .error { status_code := 404, detail := notFoundMsg dish_id } ∧
    DishService.update_dish now db dish_id u =
      .error { status_code := 404, detail := notFoundMsg dish_id } ∧
    DishService.delete_dish db dish_id =
      .error { status_code := 404, detail := notFoundMsg dish_id } := by
  have hfind : db.dishes.find? (fun d => d.id = dish_id) = none := by
    rw [List.find?_eq_none]
    intro d hd
    simpa using h d hd
  have hany : db.dishes.any (fun d => d.id = dish_id) = false := by
    rw [List.any_eq_false]
    intro d hd
    simpa using h d hd
  refine ⟨?_, ?_, ?_⟩
  · simp [DishService.get_dish_by_id, DishRepository.get_by_id, hfind, NotFoundException]
  · simp [DishService.update_dish, DishRepository.update, hfind, NotFoundException]
  · simp [DishService.delete_dish, DishRepository.delete, hany, NotFoundException]

/-- Witness for C2: id 99 matches no dish of `exDB`; all three operations
answer the same 404. -/
theorem claim_C2_witness :
    DishService.get_dish_by_id exDB 99 =
      .error { status_code := 404, detail := notFoundMsg 99 } ∧
    DishService.update_dish 7 exDB 99 { name := none, description := some (some "hot") } =
      .error { status_code := 404, detail := notFoundMsg 99 } ∧
    DishService.delete_dish exDB 99 =
      .error { status_code := 404, detail := notFoundMsg 99 } :=
  claim_C2 7 exDB 99 { name := none, description := some (some "hot") } (by decide)

/-- Claim C9: for every sequence returned by `Repository.get_all`,
`list_dishes` returns a sequence of the same length in the same order whose
elements are the public representations of the corresponding entities; the
filters are applied to `get_all` exactly as received. -/
theorem claim_C9
    (get_all : Option String → String → String → Int → Int → List Dish)
    (search : Option String) (order_by : String) (direction : String)
    (limit offset : Int) (i : Nat)
    (h : i < (get_all search order_by direction limit offset).length)
    (h₂ : i < (DishService.list_dishes get_all search order_by direction limit offset).length) :
    (DishService.list_dishes get_all search order_by direction limit offset).length =
      (get_all search order_by direction limit offset).length ∧
    (DishService.list_dishes get_all search order_by direction limit offset).get ⟨i, h₂⟩ =
      DishPublic.model_validate
        ((get_all search order_by direction limit offset).get ⟨i, h⟩) := by
  refine ⟨by simp [DishService.list_dishes], ?_⟩
  simp [DishService.list_dishes]

/-- Witness for C9: the concrete repository result `gaEx` of length two is
mapped element by element. -/
theorem claim_C9_witness :
    (DishService.list_dishes gaEx (some "o") "name" "desc" 10 0).length =
      (gaEx (some "o") "name" "desc" 10 0).length ∧
    (DishService.list_dishes gaEx (some "o") "name" "desc" 10 0).get ⟨1, by decide⟩ =
      DishPublic.model_validate ((gaEx (some "o") "name" "desc" 10 0).get ⟨1, by decide⟩) :=
  claim_C9 gaEx (some "o") "name" "desc" 10 0 1 (by decide) (by decide)

/-- Claim C1: on a uniqueness-sound table, `create_dish` with a name that
collides with an existing dish fails with
`AlreadyExists (409, "Dish with name '<name>' already exists")`, and with a
fresh name succeeds and returns the public representation of the newly
created entity. -/
theorem claim_C1 (now : Nat) (db : DB) (dish_in : DishCreate) :
    ((∃ d ∈ db.dishes, d.name = dish_in.name) →
      DishService.create_dish now db dish_in =
        .error { status_code := 409, detail := createConflictMsg dish_in.name }) ∧
    ((dishNames db).Nodup → (∀ d ∈ db.dishes, d.name ≠ dish_in.name) →
      DishService.create_dish now db dish_in =
        .ok (DishPublic.model_validate (newDish now db dish_in),
             { db with dishes := db.dishes ++ [newDish now db dish_in],
                       next_dish_id := db.next_dish_id + 1 })) := by
  constructor
  · rintro ⟨d, hd, hname⟩
    have hnot : ¬ (List.map Dish.name db.dishes ++ [(newDish now db dish_in).name]).Nodup := by
      intro hnd
      rw [List.nodup_append] at hnd
      have hmem : dish_in.name ∈ db.dishes.map Dish.name := List.mem_map.mpr ⟨d, hd, hname⟩
      exact hnd.2.2 hmem (by simp [newDish])
    simp [DishService.create_dish, DishRepository.create, hnot, AlreadyExistsException]
  · intro hnd hfresh
    simp only [dishNames] at hnd
    have hok : (List.map Dish.name db.dishes ++ [(newDish now db dish_in).name]).Nodup := by
      rw [List.nodup_append]
      refine ⟨hnd, by simp, ?_⟩
      intro a ha hb
      simp [newDish] at hb
      subst hb
      obtain ⟨d, hd, hname⟩ := List.mem_map.mp ha
      exact hfresh d hd hname
    simp [DishService.create_dish, DishRepository.create, hok]

/-- Witness for C1: creating "Mapo Tofu" again collides with dish 1 of
`exDB`; creating "Dumplings" is fresh and succeeds. -/
theorem claim_C1_witness :
    DishService.create_dish 7 exDB { name := "Mapo Tofu", description := none } =
      .error { status_code := 409, detail := createConflictMsg "Mapo Tofu" } ∧
    DishService.create_dish 7 exDB { name := "Dumplings", description := some "steamed" } =
      .ok (DishPublic.model_validate
            (newDish 7 exDB { name := "Dumplings", description := some "steamed" }),
           { exDB with
             dishes := exDB.dishes ++ [newDish 7 exDB { name := "Dumplings", description := some "steamed" }],
             next_dish_id := exDB.next_dish_id + 1 }) :=
  ⟨(claim_C1 7 exDB { name := "Mapo Tofu", description := none }).1 (by decide),
   (claim_C1 7 exDB { name := "Dumplings", description := some "steamed" }).2
     (by decide) (by decide)⟩

/-- Claim C8: for an existing dish of a uniqueness-sound table, an update
providing only `description` succeeds with `name` unchanged (and the whole
name column untouched); an update providing only `name` leaves `description`
unchanged whenever it succeeds; and the empty partial update succeeds with
status 200 returning the current state, leaving the public projection of
every stored row unchanged. -/
theorem claim_C8 (now : Nat) (db : DB) (dish_id : Nat) (row : Dish)
    (hrow : DishRepository.get_by_id db dish_id = some row)
    (hnd : (dishNames db).Nodup) :
    (∀ dv : Option String,
      DishService.update_dish now db dish_id { name := none, description := some dv } =
        .ok ({ id := row.id, name := row.name, description := dv,
               created_at := row.created_at },
             { db with
               dishes := updatedDishes now db dish_id { name := none, description := some dv } }) ∧
      (updatedDishes now db dish_id { name := none, description := some dv }).map Dish.name =
        db.dishes.map Dish.name) ∧
    (∀ (nm : String) (p : DishPublic) (db' : DB),
      DishService.update_dish now db dish_id
          { name := some (some nm), description := none } = .ok (p, db') →
      p.description = row.description) ∧
    route_update_dish now db dish_id { name := none, description := none } =
      .success 200 (DishPublic.model_validate row,
        { db with
          dishes := updatedDishes now db dish_id { name := none, description := none } }) ∧
    (updatedDishes now db dish_id { name := none, description := none }).map
        DishPublic.model_validate =
      db.dishes.map DishPublic.model_validate := by
  have hfind : db.dishes.find? (fun d => d.id = dish_id) = some row := hrow
  refine ⟨?_, ?_, ?_, ?_⟩
  · intro dv
    exact ⟨update_dish_ok_of_name_none now db dish_id row
            { name := none, description := some dv } rfl hfind hnd,
          names_updatedDishes_of_name_none rfl now db dish_id⟩
  · intro nm p db' h
    obtain ⟨row₀, row', hf₀, happ, hp⟩ := update_dish_ok_inv h
    have hrow₀ : row₀ = row := by
      rw [hfind] at hf₀
      exact (Option.some.inj hf₀).symm
    subst hrow₀
    have := applyDishUpdate_description happ
    rw [hp]
    simpa [DishPublic.model_validate] using this
  · have h := update_dish_ok_of_name_none now db dish_id row
      { name := none, description := none } rfl hfind hnd
    unfold route_update_dish
    rw [h]
    simp [DishPublic.model_validate]
  · exact public_updatedDishes_of_empty now db dish_id

/-- Witness for C8: concrete partial updates of dish 1 in `exDB`. -/
theorem claim_C8_witness :
    (DishService.update_dish 7 exDB 1 { name := none, description := some (some "very spicy") } =
      .ok ({ id := dishMapo.id, name := dishMapo.name, description := some "very spicy",
             created_at := dishMapo.created_at },
           { exDB with
             dishes := updatedDishes 7 exDB 1 { name := none, description := some (some "very spicy") } }) ∧
      (updatedDishes 7 exDB 1 { name := none, description := some (some "very spicy") }).map Dish.name =
        exDB.dishes.map Dish.name) ∧
    ({ id := 1, name := "Dan Dan Noodles", description := some "spicy",
       created_at := 0 } : DishPublic).description = dishMapo.description ∧
    route_update_dish 7 exDB 1 { name := none, description := none } =
      .success 200 (DishPublic.model_validate dishMapo,
        { exDB with dishes := updatedDishes 7 exDB 1 { name := none, description := none } }) := by
  have h := claim_C8 7 exDB 1 dishMapo (by decide) (by decide)
  exact ⟨h.1 (some "very spicy"),
         h.2.1 "Dan Dan Noodles"
           { id := 1, name := "Dan Dan Noodles", description := some "spicy", created_at := 0 }
           { exDB with
             dishes := updatedDishes 7 exDB 1 { name := some (some "Dan Dan Noodles"), description := none } }
           (by decide),
         h.2.2.1⟩

/-- Counterexample for C3: providing `name` explicitly as null does not
clear the field — with dish 1 present in `exDB`, the update
`{"name": null}` is rejected by the NOT NULL constraint of
src/dishes/model.py line 41 and surfaces as the service's blanket
`IntegrityError` translation (409 AlreadyExists), so for the `name` field
"explicitly provided as null" does not mean "clear the field". -/
theorem claim_C3_counterexample :
    DishService.update_dish 7 exDB 1 { name := some none, description := none } =
      .error { status_code := 409, detail := "Dish with this name already exists" } := by
  decide

/-- Claim C3 (amended): a field absent from the request means "leave
unchanged"; for the nullable `description` field an explicit null clears the
field; for the non-nullable `name` field an explicit null is rejected at
write time instead of clearing; in every case "absent" and "provided as
null" remain distinguishable end-to-end — they are never collapsed into the
same outcome. -/
theorem claim_C3 (now : Nat) (db : DB) (dish_id : Nat) (row : Dish) (s : String)
    (hrow : DishRepository.get_by_id db dish_id = some row)
    (hnd : (dishNames db).Nodup)
    (hdesc : row.description = some s) :
    DishService.update_dish now db dish_id { name := none, description := none } =
      .ok ({ id := row.id, name := row.name, description := some s,
             created_at := row.created_at },
           { db with
             dishes := updatedDishes now db dish_id { name := none, description := none } }) ∧
    DishService.update_dish now db dish_id { name := none, description := some none } =
      .ok ({ id := row.id, name := row.name, description := none,
             created_at := row.created_at },
           { db with
             dishes := updatedDishes now db dish_id { name := none, description := some none } }) ∧
    DishService.update_dish now db dish_id { name := none, description := none } ≠
      DishService.update_dish now db dish_id { name := none, description := some none } ∧
    DishService.update_dish now db dish_id { name := some none, description := none } =
      .error { status_code := 409, detail := "Dish with this name already exists" } := by
  have hfind : db.dishes.find? (fun d => d.id = dish_id) = some row := hrow
  have h₁ := update_dish_ok_of_name_none now db dish_id row
    { name := none, description := none } rfl hfind hnd
  have h₂ := update_dish_ok_of_name_none now db dish_id row
    { name := none, description := some none } rfl hfind hnd
  simp only [Option.getD_none, Option.getD_some] at h₁ h₂
  refine ⟨by rw [h₁, hdesc], by rw [h₂], ?_, ?_⟩
  · rw [h₁, h₂, hdesc]
    simp
  · unfold DishService.update_dish DishRepository.update
    rw [hfind]
    dsimp only
    have : applyDishUpdate { name := some none, description := none } now row = none := rfl
    rw [this]
    rfl

/-- Witness for C3: the three wire forms of a PATCH on dish 1 of `exDB`
(empty body, `{"description": null}`, `{"name": null}`) produce three
distinct outcomes. -/
theorem claim_C3_witness :
    DishService.update_dish 7 exDB 1 { name := none, description := none } =
      .ok ({ id := dishMapo.id, name := dishMapo.name, description := some "spicy",
             created_at := dishMapo.created_at },
           { exDB with dishes := updatedDishes 7 exDB 1 { name := none, description := none } }) ∧
    DishService.update_dish 7 exDB 1 { name := none, description := some none } =
      .ok ({ id := dishMapo.id, name := dishMapo.name, description := none,
             created_at := dishMapo.created_at },
           { exDB with dishes := updatedDishes 7 exDB 1 { name := none, description := some none } }) ∧
    DishService.update_dish 7 exDB 1 { name := none, description := none } ≠
      DishService.update_dish 7 exDB 1 { name := none, description := some none } :=
  let h := claim_C3 7 exDB 1 dishMapo "spicy" (by decide) (by decide) (by decide)
  ⟨h.1, h.2.1, h.2.2.1⟩

/-- A successful create leaves the dish-name column duplicate-free (the
engine admits the insert only after checking the UNIQUE constraint). -/
lemma create_dish_ok_nodup {now : Nat} {db : DB} {dish_in : DishCreate}
    {p : DishPublic} {db' : DB}
    (h : DishService.create_dish now db dish_in = .ok (p, db')) :
    (dishNames db').Nodup := by
  unfold DishService.create_dish DishRepository.create at h
  by_cases hc : ((db.dishes ++ [newDish now db dish_in]).map Dish.name).Nodup
  · rw [if_pos hc] at h
    dsimp only at h
    simp only [Except.ok.injEq, Prod.mk.injEq] at h
    rw [← h.2]
    exact hc
  · rw [if_neg hc] at h
    simp at h

/-- A successful update leaves the dish-name column duplicate-free. -/
lemma update_dish_ok_nodup {now : Nat} {db : DB} {dish_id : Nat} {u : DishUpdate}
    {p : DishPublic} {db' : DB}
    (h : DishService.update_dish now db dish_id u = .ok (p, db')) :
    (dishNames db').Nodup := by
  unfold DishService.update_dish DishRepository.update at h
  cases hf : db.dishes.find? (fun d => d.id = dish_id) with
  | none => rw [hf] at h; simp at h
  | some row =>
    rw [hf] at h
    dsimp only at h
    cases ha : applyDishUpdate u now row with
    | none => rw [ha] at h; simp at h
    | some row' =>
      rw [ha] at h
      dsimp only at h
      by_cases hc : (List.map Dish.name (updatedDishes now db dish_id u)).Nodup
      · rw [if_pos hc] at h
        dsimp only at h
        simp only [Except.ok.injEq, Prod.mk.injEq] at h
        rw [← h.2]
        exact hc
      · rw [if_neg hc] at h
        simp at h

/-- A successful delete keeps exactly the rows whose id differs. -/
lemma delete_dish_ok_dishes {db : DB} {dish_id : Nat} {db' : DB}
    (h : DishService.delete_dish db dish_id = .ok db') :
    db'.dishes = db.dishes.filter (fun d => d.id ≠ dish_id) := by
  cases hca : db.dishes.any (fun d => d.id = dish_id) with
  | false => simp [DishService.delete_dish, DishRepository.delete, hca] at h
  | true =>
    simp only [DishService.delete_dish, DishRepository.delete, hca, if_true,
      Except.ok.injEq] at h
    rw [← h]

/-- Claim C7: in every reachable persisted state no two Dish rows share the
same name; the uniqueness outcome is decided by the attempted write itself —
`create_dish` raises AlreadyExists exactly when `Repository.create`'s write
signals the backend constraint violation, with no pre-check before the
write. -/
theorem claim_C7 :
    (∀ db : DB, Reachable db → (dishNames db).Nodup) ∧
    (∀ (now : Nat) (db : DB) (dish_in : DishCreate) (e : HTTPException),
      DishService.create_dish now db dish_in = .error e →
      (∃ ie, DishRepository.create now db dish_in = .error ie) ∧
      e = { status_code := 409, detail := createConflictMsg dish_in.name }) ∧
    (∀ (now : Nat) (db : DB) (dish_in : DishCreate) (ie : IntegrityError),
      DishRepository.create now db dish_in = .error ie →
      DishService.create_dish now db dish_in =
        .error { status_code := 409, detail := createConflictMsg dish_in.name }) := by
  refine ⟨?_, ?_, ?_⟩
  · intro db h
    induction h with
    | init => simp [dishNames, initialDB]
    | create now db dish_in p db' _ hok _ => exact create_dish_ok_nodup hok
    | update now db dish_id u p db' _ hok _ => exact update_dish_ok_nodup hok
    | delete db dish_id db' _ hok ih =>
      have hd := delete_dish_ok_dishes hok
      unfold dishNames at ih ⊢
      rw [hd]
      exact List.Nodup.sublist ((List.filter_sublist _).map Dish.name) ih
  · intro now db dish_in e h
    unfold DishService.create_dish DishRepository.create at h
    by_cases hc : ((db.dishes ++ [newDish now db dish_in]).map Dish.name).Nodup
    · rw [if_pos hc] at h
      simp at h
    · rw [if_neg hc] at h
      dsimp only at h
      simp only [Except.error.injEq] at h
      refine ⟨⟨{ message := "UNIQUE constraint failed: dishes.name" }, ?_⟩, ?_⟩
      · unfold DishRepository.create
        rw [if_neg hc]
      · rw [← h]
        rfl
  · intro now db dish_in ie h
    unfold DishRepository.create at h
    by_cases hc : ((db.dishes ++ [newDish now db dish_in]).map Dish.name).Nodup
    · rw [if_pos hc] at h
      simp at h
    · unfold DishService.create_dish DishRepository.create
      rw [if_neg hc]
      rfl

/-- Witness for C7: the initial state satisfies the invariant, and a
concrete colliding create is answered by reacting to the write's
constraint-violation signal. -/
theorem claim_C7_witness :
    (dishNames initialDB).Nodup ∧
    DishService.create_dish 7 exDB { name := "Mapo Tofu", description := none } =
      .error { status_code := 409, detail := createConflictMsg "Mapo Tofu" } :=
  ⟨claim_C7.1 initialDB Reachable.init,
   claim_C7.2.2 7 exDB { name := "Mapo Tofu", description := none }
     { message := "UNIQUE constraint failed: dishes.name" } (by decide)⟩

/-- Claim C6: validated query parameters always have `order_by` in
{id, name, created_at}, `direction` in {asc, desc}, `limit` in [1, 500] and
`offset` ≥ 0; a raw query carrying any value outside these sets is rejected
by the schema, and a rejected query is answered 422 by the route for every
repository whatsoever — the service/repository is never consulted; an empty
query takes the defaults (id, asc, 10, 0). -/
theorem claim_C6 (raw : RawQuery) (p : DishQueryParams)
    (get_all : Option String → String → String → Int → Int → List Dish) :
    (DishQueryParams.validate raw = some p →
      p.order_by ∈ allowedOrderBy ∧ p.direction ∈ allowedDirection ∧
      1 ≤ p.limit ∧ p.limit ≤ 500 ∧ 0 ≤ p.offset) ∧
    ((raw.order_by.getD "id" ∉ allowedOrderBy ∨
      raw.direction.getD "asc" ∉ allowedDirection ∨
      raw.limit.getD 10 < 1 ∨ 500 < raw.limit.getD 10 ∨
      raw.offset.getD 0 < 0) →
      DishQueryParams.validate raw = none) ∧
    (DishQueryParams.validate raw = none →
      route_list_dishes get_all raw =
        .errorResp { status_code := 422, detail := "Unprocessable Entity" }) ∧
    DishQueryParams.validate rawEmpty = some defaultQP := by
  refine ⟨?_, ?_, ?_, by decide⟩
  · intro h
    unfold DishQueryParams.validate at h
    dsimp only at h
    split at h
    · simp only [Option.some.injEq] at h
      rw [← h]
      rename_i hcond
      exact hcond
    · simp at h
  · intro hbad
    have hnot : ¬(raw.order_by.getD "id" ∈ allowedOrderBy ∧
        raw.direction.getD "asc" ∈ allowedDirection ∧
        1 ≤ raw.limit.getD 10 ∧ raw.limit.getD 10 ≤ 500 ∧
        0 ≤ raw.offset.getD 0) := by
      intro hcond
      rcases hbad with hb | hb | hb | hb | hb
      · exact hb hcond.1
      · exact hb hcond.2.1
      · omega
      · omega
      · omega
    unfold DishQueryParams.validate
    dsimp only
    rw [if_neg hnot]
  · intro h
    unfold route_list_dishes
    rw [h]

/-- Witness for C6: the empty query yields the defaults, which satisfy the
bounds; the invalid `order_by=price` query is rejected and answered 422
without consulting the repository. -/
theorem claim_C6_witness :
    (defaultQP.order_by ∈ allowedOrderBy ∧ defaultQP.direction ∈ allowedDirection ∧
      1 ≤ defaultQP.limit ∧ defaultQP.limit ≤ 500 ∧ 0 ≤ defaultQP.offset) ∧
    DishQueryParams.validate rawBad = none ∧
    route_list_dishes gaEx rawBad =
      .errorResp { status_code := 422, detail := "Unprocessable Entity" } :=
  ⟨(claim_C6 rawEmpty defaultQP gaEx).1 (by decide),
   (claim_C6 rawBad defaultQP gaEx).2.1 (Or.inl (by decide)),
   (claim_C6 rawBad defaultQP gaEx).2.2.1
     ((claim_C6 rawBad defaultQP gaEx).2.1 (Or.inl (by decide)))⟩

end What2Eat
